import Mathlib

/-!
Shallow embedding of the polars-analyst-agent repository, covering:
  - src/memory/compact_memory.py (text truncation and the step callback),
  - src/agent_controller.py (the retry loop of DataAnalysisAgent.analyze
    and its transient-overload error classification),
  - src/tools/data_loader.py (PolarsDataLoaderTool.forward),
  - src/tools/data_inspector.py (column classification),
  - src/tools/data_profiler.py (outlier statistics and the correlation
    report).
Python strings are modelled as Lean String values and manipulated through
their underlying character lists; machine floats that only ever carry
exact decimal constants are modelled as rationals.  External collaborators
(the polars parser and its quantile and correlation kernels, the
filesystem, the LLM run itself) enter as explicit parameters, exactly at
the call sites where the source invokes them.
-/

/-- Python substring test `needle in hay`, on the character lists of the
two strings. -/
def strContains (hay needle : String) : Bool :=
  decide (needle.data <:+: hay.data)

/-- Python `str.lower()`: lower-case every character. -/
def pyLower (s : String) : String :=
  ⟨s.data.map Char.toLower⟩

/-- Python slice `s[:stop]` with a possibly negative stop index: a
negative stop counts from the end of the string and clamps at zero. -/
def pySliceTo (s : String) (stop : Int) : String :=
  ⟨s.data.take (if stop < 0 then (s.data.length : Int) + stop else stop).toNat⟩

/-! ## src/memory/compact_memory.py -/

/-- Default value of the `suffix` parameter of `truncate_text`. -/
def TRUNCATION_SUFFIX : String := "... [truncated]"

/-- Embedding of `truncate_text(text, max_chars, suffix)` from
src/memory/compact_memory.py lines 10-25: if the text is within the
limit return it unchanged, otherwise return
`text[:max_chars - len(suffix)] + suffix`. -/
def truncate_text (text : String) (max_chars : Nat) (suffix : String) : String :=
  if text.length ≤ max_chars then text
  else pySliceTo text ((max_chars : Int) - (suffix.length : Int)) ++ suffix

/-- The dynamic attributes of a smolagents ActionStep that
`compact_memory_callback` inspects.  `observations = none` models an
object without an `observations` attribute; `some none` models the
attribute holding Python None.  `error = none` models a missing `error`
attribute and `some b` an attribute whose truthiness is `b`. -/
structure AgentStep where
  observations : Option (Option String)
  error : Option Bool
  deriving DecidableEq, Repr

/-- Embedding of `compact_memory_callback(step)` from
src/memory/compact_memory.py lines 28-53, as a state transformer on the
step object.  A step without an `observations` attribute is returned
untouched; falsy observations (None or the empty string) are left alone;
otherwise the text is truncated to 1200 characters when the step has a
truthy `error` attribute and to 800 characters when it does not. -/
def compact_memory_callback (step : AgentStep) : AgentStep :=
  match step.observations with
  | none => step
  | some obs =>
    match obs with
    | none => step
    | some s =>
      if s.length = 0 then step
      else if step.error.getD false then
        { step with observations := some (some (truncate_text s 1200 TRUNCATION_SUFFIX)) }
      else
        { step with observations := some (some (truncate_text s 800 TRUNCATION_SUFFIX)) }

/-! ## src/agent_controller.py -/

/-- Embedding of the overload test on line 156 of src/agent_controller.py:
`"503" in error_str or "UNAVAILABLE" in error_str or "overloaded" in
error_str.lower()`. -/
def is_overload (error_str : String) : Bool :=
  strContains error_str "503" || strContains error_str "UNAVAILABLE" ||
    strContains (pyLower error_str) "overloaded"

/-- One simulated invocation of `self.agent.run(full_task)`: either the
final answer string or the text of the raised exception, indexed by the
attempt number. -/
def RunOutcome : Type := Nat → Except String String

/-- Embedding of the body of the retry loop of `DataAnalysisAgent.analyze`
(src/agent_controller.py lines 143-179), iterating `attempt` over
`range(max_retries + 1)` with `rem` iterations left.  The value is the
returned string (none models the implicit Python None were the loop ever
to fall through), the number of invocations of the run function, and the
list of back-off sleeps performed, in order. -/
def retry_loop (run : RunOutcome) (max_retries : Nat) (retry_delay : ℚ) :
    Nat → Nat → Option String × Nat × List ℚ
  | _, 0 => (none, 0, [])
  | attempt, rem + 1 =>
    match run attempt with
    | .ok r => (some r, 1, [])
    | .error e =>
      if is_overload e = true ∧ attempt < max_retries then
        let rest := retry_loop run max_retries retry_delay (attempt + 1) rem
        (rest.1, rest.2.1 + 1, retry_delay * 2 ^ attempt :: rest.2.2)
      else
        (some ("Analysis failed: " ++ e), 1, [])

/-- Embedding of `DataAnalysisAgent.analyze` restricted to its retry loop:
`for attempt in range(max_retries + 1)` starting at attempt 0. -/
def analyze (run : RunOutcome) (max_retries : Nat) (retry_delay : ℚ) :
    Option String × Nat × List ℚ :=
  retry_loop run max_retries retry_delay 0 (max_retries + 1)

/-! ## src/tools/data_loader.py -/

/-- The metadata that `PolarsDataLoaderTool.forward` reads off a
successfully parsed polars dataframe (lines 68-78). -/
structure LoadedFrame where
  n_rows : Nat
  n_cols : Nat
  columns : List String
  dtypes : List String
  nulls : List Nat
  deriving DecidableEq, Repr

/-- The encodings tried by the fallback loop (line 46). -/
def LOADER_ENCODINGS : List String := ["utf-8", "latin-1", "iso-8859-1"]

/-- The separators tried by the fallback loop (line 47). -/
def LOADER_SEPARATORS : List String := [",", ";", "\t", "|"]

/-- First successful parse over a list of encoding/separator pairs: the
embedding of the nested fallback loop with its two break statements
(lines 49-63), which keeps the first dataframe produced in lexicographic
pair order. -/
def first_success (parse_with : String → String → Option LoadedFrame) :
    List (String × String) → Option LoadedFrame
  | [] => none
  | (enc, sep) :: rest =>
    match parse_with enc sep with
    | some df => some df
    | none => first_success parse_with rest

/-- The report text built on lines 74-78 for a loaded frame. -/
def frame_summary (csv_path : String) (df : LoadedFrame) : String :=
  "CSV loaded: " ++ csv_path ++
    "\nShape: " ++ toString df.n_rows ++ " rows, " ++ toString df.n_cols ++ " columns" ++
    "\nColumns: " ++ toString df.columns ++
    "\nTypes: " ++ toString df.dtypes ++
    "\nNulls: " ++ toString df.nulls

/-- Embedding of `PolarsDataLoaderTool.forward` (src/tools/data_loader.py
lines 34-83).  The filesystem check `os.path.exists` enters as the flag
`path_exists`; the default `pl.read_csv(csv_path)` call enters as
`parse_default` (the error branch carries the exception text used in the
final message); the fallback `pl.read_csv(csv_path, encoding, separator,
ignore_errors=True)` calls enter as `parse_with`. -/
def loader_forward (csv_path : String) (path_exists : Bool)
    (parse_default : Except String LoadedFrame)
    (parse_with : String → String → Option LoadedFrame) : String :=
  if path_exists = false then
    "ERROR: File not found at path: " ++ csv_path
  else
    match parse_default with
    | .ok df => frame_summary csv_path df
    | .error e =>
      match first_success parse_with
          (LOADER_ENCODINGS.flatMap fun enc => LOADER_SEPARATORS.map fun sep => (enc, sep)) with
      | some df => frame_summary csv_path df
      | none =>
        "ERROR: Could not load CSV with various encoding/separator combinations. Original error: " ++ e

/-! ## src/tools/data_inspector.py -/

/-- The scalar dtypes polars infers when reading a CSV, together with the
Null dtype of an all-null column.  `Str` renders as "String", the polars
string dtype. -/
inductive PolarsDtype
  | Int64
  | Float64
  | Str
  | Boolean
  | Date
  | Null
  deriving DecidableEq, Repr

/-- The text produced by Python `str(df[col].dtype)` for each dtype. -/
def dtype_str : PolarsDtype → String
  | .Int64 => "Int64"
  | .Float64 => "Float64"
  | .Str => "String"
  | .Boolean => "Boolean"
  | .Date => "Date"
  | .Null => "Null"

/-- The three column classes assigned by DataInspectorTool. -/
inductive ColClass
  | NUMERIC
  | CATEGORICAL
  | TEXT
  deriving DecidableEq, Repr

/-- Embedding of the per-column classification of
`DataInspectorTool.forward` (src/tools/data_inspector.py lines 52-65):
NUMERIC when the dtype string contains "Int" or "Float", otherwise
CATEGORICAL when the distinct-value count reported by polars `n_unique`
is below 20, otherwise TEXT. -/
def classify_column (dtype : PolarsDtype) (unique : Nat) : ColClass :=
  if strContains (dtype_str dtype) "Int" = true ∨ strContains (dtype_str dtype) "Float" = true then
    .NUMERIC
  else if unique < 20 then
    .CATEGORICAL
  else
    .TEXT

/-! ## src/tools/data_profiler.py -/

/-- Embedding of the numeric-column analysis of `DataProfilerTool.forward`
(src/tools/data_profiler.py lines 77-91) for one column.  The cells are
the column with nulls marked `none`; `values = df[col].drop_nulls()`.
The quartiles q1 and q3 are the values returned by the external polars
`quantile(0.25)` and `quantile(0.75)` calls on those values.  The result
is the reported outlier count and outlier percentage, or `none` when the
`len(values) > 0` guard fails and nothing is reported. -/
def profile_numeric_column (cells : List (Option ℚ)) (q1 q3 : ℚ) : Option (Nat × ℚ) :=
  let values := cells.filterMap id
  if 0 < values.length then
    let iqr := q3 - q1
    let lower_bound := q1 - 3/2 * iqr
    let upper_bound := q3 + 3/2 * iqr
    let outliers := values.countP fun v => decide (v < lower_bound) || decide (upper_bound < v)
    some (outliers, (outliers : ℚ) / (values.length : ℚ) * 100)
  else none

/-- Embedding of the correlation-collection loop of
`DataProfilerTool.forward` (src/tools/data_profiler.py lines 106-117):
`for i, col1 in enumerate(numeric_cols[:5]): for col2 in
numeric_cols[i+1:6]: ...` keeping `(col1, col2, corr)` whenever
`abs(corr) > 0.5`.  The external polars `pl.corr(col1, col2)` kernel
enters as the function `corr`. -/
def collect_correlations (numeric_cols : List String) (corr : String → String → ℚ) :
    List (String × String × ℚ) :=
  (numeric_cols.take 5).enum.flatMap fun p =>
    ((numeric_cols.drop (p.1 + 1)).take (6 - (p.1 + 1))).filterMap fun col2 =>
      let c := corr p.2 col2
      if 1/2 < |c| then some (p.2, col2, c) else none

/-- Embedding of the display ordering on line 121:
`sorted(correlations, key=lambda x: abs(x[2]), reverse=True)`. -/
def sorted_correlations (numeric_cols : List String) (corr : String → String → ℚ) :
    List (String × String × ℚ) :=
  (collect_correlations numeric_cols corr).mergeSort fun a b => decide (|b.2.2| ≤ |a.2.2|)

/-! ## Helper lemmas -/

lemma truncate_text_of_le (text : String) (M : Nat) (suffix : String)
    (h : text.length ≤ M) : truncate_text text M suffix = text :=
  if_pos h

lemma string_length_mk (l : List Char) : (String.mk l).length = l.length := rfl

lemma truncate_text_length (text : String) (M : Nat)
    (hM : TRUNCATION_SUFFIX.length ≤ M) (hgt : M < text.length) :
    (truncate_text text M TRUNCATION_SUFFIX).length = M := by
  have h15 : TRUNCATION_SUFFIX.length = 15 := by decide
  rw [truncate_text, if_neg (by omega), String.length_append, pySliceTo,
    string_length_mk, List.length_take, h15]
  have hdata : text.data.length = text.length := rfl
  split <;> omega

lemma truncate_text_le (text : String) (M : Nat)
    (hM : TRUNCATION_SUFFIX.length ≤ M) :
    (truncate_text text M TRUNCATION_SUFFIX).length ≤ M := by
  by_cases h : text.length ≤ M
  · rw [truncate_text_of_le _ _ _ h]; exact h
  · exact le_of_eq (truncate_text_length text M hM (not_le.mp h))

lemma truncate_text_suffix (text : String) (M : Nat) (hgt : M < text.length) :
    TRUNCATION_SUFFIX.data <:+ (truncate_text text M TRUNCATION_SUFFIX).data := by
  rw [truncate_text, if_neg (by omega), String.data_append]
  exact List.suffix_append _ _

/-! ## C1 -/

/-- C1 counterexample: the input "aaaaaaaaaa" of length 10 with limit
M = 5 satisfies L > M, but the truncated output has length 15, not 5:
the negative Python slice `text[:5 - 15]` drops the whole prefix and
only the 15-character suffix remains. -/
theorem truncate_text_exact_length_cex :
    5 < ("aaaaaaaaaa" : String).length ∧
      (truncate_text "aaaaaaaaaa" 5 TRUNCATION_SUFFIX).length ≠ 5 := by
  decide

/-- C1 (corrected: the exact-length and suffix guarantees hold only when
the limit M is at least the length of the truncation suffix, 15): for
every input of length L and limit M with TRUNCATION_SUFFIX.length ≤ M,
if L > M the output has length exactly M and ends with the configured
suffix, and if L ≤ M the output is the input unchanged. -/
theorem truncate_text_spec (text : String) (M : Nat)
    (hM : TRUNCATION_SUFFIX.length ≤ M) :
    (text.length ≤ M → truncate_text text M TRUNCATION_SUFFIX = text) ∧
    (M < text.length →
      (truncate_text text M TRUNCATION_SUFFIX).length = M ∧
      TRUNCATION_SUFFIX.data <:+ (truncate_text text M TRUNCATION_SUFFIX).data) := by
  refine ⟨fun h => truncate_text_of_le _ _ _ h, fun h => ⟨?_, ?_⟩⟩
  · exact truncate_text_length text M hM h
  · exact truncate_text_suffix text M h

/-- Witness for C1 at the 30-character input and limit 20. -/
theorem truncate_text_spec_witness :
    (truncate_text (String.mk (List.replicate 30 'a')) 20 TRUNCATION_SUFFIX).length = 20 ∧
    TRUNCATION_SUFFIX.data <:+
      (truncate_text (String.mk (List.replicate 30 'a')) 20 TRUNCATION_SUFFIX).data :=
  (truncate_text_spec (String.mk (List.replicate 30 'a')) 20 (by decide)).2 (by decide)

/-! ## C10 -/

/-- C10: for every string and every limit M at least the length of the
truncation suffix, truncation is idempotent: a second application at the
same limit returns the first result unchanged. -/
theorem truncate_text_idempotent (s : String) (M : Nat)
    (hM : TRUNCATION_SUFFIX.length ≤ M) :
    truncate_text (truncate_text s M TRUNCATION_SUFFIX) M TRUNCATION_SUFFIX =
      truncate_text s M TRUNCATION_SUFFIX := by
  by_cases h : s.length ≤ M
  · rw [truncate_text_of_le _ _ _ h, truncate_text_of_le _ _ _ h]
  · exact truncate_text_of_le _ _ _
      (le_of_eq (truncate_text_length s M hM (not_le.mp h)))

/-- Witness for C10 at a 40-character input and limit 25. -/
theorem truncate_text_idempotent_witness :
    truncate_text (truncate_text (String.mk (List.replicate 40 'b')) 25 TRUNCATION_SUFFIX)
        25 TRUNCATION_SUFFIX =
      truncate_text (String.mk (List.replicate 40 'b')) 25 TRUNCATION_SUFFIX :=
  truncate_text_idempotent (String.mk (List.replicate 40 'b')) 25 (by decide)

/-! ## C4 -/

/-- C4: for every step object, a step without an observations attribute
is returned unchanged (the callback returns without raising); a step
with observations text and a truthy error attribute ends up with
observations of at most 1200 characters; a step with observations text
and no truthy error attribute ends up with at most 800 characters. -/
theorem compact_memory_callback_spec (step : AgentStep) :
    (step.observations = none → compact_memory_callback step = step) ∧
    (∀ s, step.observations = some (some s) → step.error = some true →
      ∃ t, (compact_memory_callback step).observations = some (some t) ∧
        t.length ≤ 1200) ∧
    (∀ s, step.observations = some (some s) → step.error ≠ some true →
      ∃ t, (compact_memory_callback step).observations = some (some t) ∧
        t.length ≤ 800) := by
  refine ⟨fun h => by simp [compact_memory_callback, h], ?_, ?_⟩
  · intro s hobs herr
    have hget : step.error.getD false = true := by rw [herr]; rfl
    by_cases hs : s.length = 0
    · exact ⟨s, by simp [compact_memory_callback, hobs, hs], by omega⟩
    · exact ⟨truncate_text s 1200 TRUNCATION_SUFFIX,
        by simp [compact_memory_callback, hobs, hs, hget],
        truncate_text_le s 1200 (by decide)⟩
  · intro s hobs herr
    have hget : step.error.getD false = false := by
      rcases h : step.error with _ | b
      · rfl
      · cases b
        · rfl
        · exact absurd h herr
    by_cases hs : s.length = 0
    · exact ⟨s, by simp [compact_memory_callback, hobs, hs], by omega⟩
    · exact ⟨truncate_text s 800 TRUNCATION_SUFFIX,
        by simp [compact_memory_callback, hobs, hs, hget],
        truncate_text_le s 800 (by decide)⟩

/-- Witness for C4 at a 1500-character observation on a step with a
truthy error attribute. -/
theorem compact_memory_callback_spec_witness :
    ∃ t, (compact_memory_callback
        ⟨some (some (String.mk (List.replicate 1500 'c'))), some true⟩).observations =
      some (some t) ∧ t.length ≤ 1200 :=
  (compact_memory_callback_spec
    ⟨some (some (String.mk (List.replicate 1500 'c'))), some true⟩).2.1 _ rfl rfl

/-! ## C6 -/

/-- Predicate taken from the wording of the claim: the error text
contains the substring "503", or the substring "UNAVAILABLE", or the
substring "overloaded" ignoring case. -/
def overload_signature (e : String) : Prop :=
  "503".data <:+: e.data ∨ "UNAVAILABLE".data <:+: e.data ∨
    (pyLower "overloaded").data <:+: (pyLower e).data

/-- C6: the retry loop of analyze classifies an error as
transient-overload (the branch of retry_loop that backs off and retries)
exactly when its text matches one of the known provider-overload
signatures: it contains "503", or "UNAVAILABLE", or "overloaded"
ignoring case. -/
theorem is_overload_iff (e : String) :
    is_overload e = true ↔ overload_signature e := by
  have h : pyLower "overloaded" = "overloaded" := by decide
  simp only [is_overload, strContains, overload_signature, h, Bool.or_eq_true,
    decide_eq_true_iff]
  tauto

/-! ## C2 -/

/-- C2: with a run function that raises a transient-overload error on its
first two invocations and succeeds on the third, analyze with
max_retries = 3 and base delay 4 returns the success result, invokes the
run function exactly 3 times, and sleeps 4 then 8 seconds; and with a
run function that always raises transient-overload errors, the default
configuration produces the successive waits 4, 8, 16. -/
theorem analyze_retry_backoff
    (run run2 : RunOutcome) (e0 e1 r : String) (errs : Nat → String)
    (h0 : run 0 = .error e0) (hov0 : is_overload e0 = true)
    (h1 : run 1 = .error e1) (hov1 : is_overload e1 = true)
    (h2 : run 2 = .ok r)
    (hrun2 : ∀ n, run2 n = .error (errs n))
    (hov2 : ∀ n, is_overload (errs n) = true) :
    analyze run 3 4 = (some r, 3, [4, 8]) ∧
    (analyze run2 3 4).2.2 = [4, 8, 16] := by
  constructor
  · show retry_loop run 3 4 0 4 = _
    simp [retry_loop, h0, h1, h2, hov0, hov1]
    norm_num
  · show (retry_loop run2 3 4 0 4).2.2 = _
    simp [retry_loop, hrun2, hov2]
    norm_num

/-- Witness for C2: the first run function fails with "503" twice then
returns "report"; the second always fails with "overloaded". -/
theorem analyze_retry_backoff_witness :
    analyze (fun n => if n < 2 then .error "503" else .ok "report") 3 4 =
      (some "report", 3, [4, 8]) ∧
    (analyze (fun _ => .error "overloaded") 3 4).2.2 = [4, 8, 16] :=
  analyze_retry_backoff (fun n => if n < 2 then .error "503" else .ok "report")
    (fun _ => .error "overloaded") "503" "503" "report" (fun _ => "overloaded")
    rfl (by decide) rfl (by decide) rfl (fun _ => rfl)
    (fun _ => by show is_overload "overloaded" = true; decide)

/-! ## C3 -/

/-- C3: with a run function that always raises an error not classified as
transient-overload, analyze invokes it exactly once, performs no backoff
wait, and returns (it is a total function, so nothing escapes the
boundary) a failure message that contains the original error text. -/
theorem analyze_non_transient (run : RunOutcome) (errs : Nat → String)
    (hrun : ∀ n, run n = .error (errs n))
    (hov : ∀ n, is_overload (errs n) = false)
    (max_retries : Nat) (retry_delay : ℚ) :
    analyze run max_retries retry_delay =
      (some ("Analysis failed: " ++ errs 0), 1, []) ∧
    strContains ("Analysis failed: " ++ errs 0) (errs 0) = true := by
  constructor
  · show retry_loop run max_retries retry_delay 0 (max_retries + 1) = _
    simp [retry_loop, hrun 0, hov 0]
  · rw [strContains, decide_eq_true_iff, String.data_append]
    exact ⟨"Analysis failed: ".data, [], by simp⟩

/-- Witness for C3 with the constant error "boom" and max_retries = 5. -/
theorem analyze_non_transient_witness :
    analyze (fun _ => .error "boom") 5 7 =
      (some ("Analysis failed: " ++ "boom"), 1, []) ∧
    strContains ("Analysis failed: " ++ "boom") "boom" = true :=
  analyze_non_transient (fun _ => .error "boom") (fun _ => "boom") (fun _ => rfl)
    (fun _ => by show is_overload "boom" = false; decide) 5 7

/-! ## C5 -/

lemma error_marker_extend (msg rest : String)
    (h : "ERROR".data <+: msg.data) : "ERROR".data <+: (msg ++ rest).data := by
  rw [String.data_append]
  exact h.trans (List.prefix_append _ _)

/-- C5: loader_forward is a total function on its inputs (the source
wraps everything and never lets an exception escape), and it returns a
text beginning with the marker "ERROR" when the path does not exist, as
well as when the default parse fails and every fallback
encoding/delimiter combination fails to parse the file. -/
theorem loader_forward_error_marker (csv_path : String) (path_exists : Bool)
    (parse_default : Except String LoadedFrame)
    (parse_with : String → String → Option LoadedFrame) :
    (path_exists = false →
      "ERROR".data <+:
        (loader_forward csv_path path_exists parse_default parse_with).data) ∧
    (∀ e, parse_default = .error e → (∀ enc sep, parse_with enc sep = none) →
      "ERROR".data <+:
        (loader_forward csv_path path_exists parse_default parse_with).data) := by
  constructor
  · intro h
    rw [loader_forward.eq_def, if_pos h]
    exact error_marker_extend _ _ (by decide)
  · intro e he hnone
    subst he
    have hfs : first_success parse_with
        (LOADER_ENCODINGS.flatMap fun enc =>
          LOADER_SEPARATORS.map fun sep => (enc, sep)) = none := by
      simp [LOADER_ENCODINGS, LOADER_SEPARATORS, first_success, hnone]
    cases path_exists
    · rw [loader_forward.eq_def, if_pos rfl]
      exact error_marker_extend _ _ (by decide)
    · rw [loader_forward.eq_def, if_neg (by simp)]
      rw [hfs]
      exact error_marker_extend _ _ (by decide)

/-- Witness for C5: a missing path, and an existing path with a default
parse failure and fallbacks that all fail. -/
theorem loader_forward_error_marker_witness :
    "ERROR".data <+:
      (loader_forward "data.csv" false (.error "bad") (fun _ _ => none)).data ∧
    "ERROR".data <+:
      (loader_forward "data.csv" true (.error "bad") (fun _ _ => none)).data :=
  ⟨(loader_forward_error_marker "data.csv" false (.error "bad") (fun _ _ => none)).1 rfl,
   (loader_forward_error_marker "data.csv" true (.error "bad") (fun _ _ => none)).2
     "bad" rfl (fun _ _ => rfl)⟩

/-! ## C7 -/

/-- C7: a column is classified NUMERIC exactly when its inferred dtype is
an integer or floating point type; a non-numeric column is classified
CATEGORICAL exactly when its distinct-value count is strictly below 20,
and TEXT exactly otherwise. -/
theorem classify_column_spec (dtype : PolarsDtype) (unique : Nat) :
    (classify_column dtype unique = .NUMERIC ↔
      (dtype = .Int64 ∨ dtype = .Float64)) ∧
    (¬ (dtype = .Int64 ∨ dtype = .Float64) →
      ((classify_column dtype unique = .CATEGORICAL ↔ unique < 20) ∧
       (classify_column dtype unique = .TEXT ↔ ¬ unique < 20))) := by
  cases dtype <;> by_cases hu : unique < 20 <;>
    simp +decide [classify_column, dtype_str, strContains, hu]

/-- Witness for C7 at a text column with 25 distinct values. -/
theorem classify_column_spec_witness :
    (classify_column .Str 25 = .NUMERIC ↔
      (PolarsDtype.Str = .Int64 ∨ PolarsDtype.Str = .Float64)) ∧
    (¬ (PolarsDtype.Str = .Int64 ∨ PolarsDtype.Str = .Float64) →
      ((classify_column .Str 25 = .CATEGORICAL ↔ 25 < 20) ∧
       (classify_column .Str 25 = .TEXT ↔ ¬ 25 < 20))) :=
  classify_column_spec .Str 25

/-! ## C9 -/

/-- Outlier predicate in the words of the claim: with IQR = Q3 − Q1, the
value v is an outlier iff v < Q1 − 1.5·IQR or v > Q3 + 1.5·IQR. -/
def is_outlier (q1 q3 v : ℚ) : Prop :=
  v < q1 - 3/2 * (q3 - q1) ∨ q3 + 3/2 * (q3 - q1) < v

instance is_outlier_decidable (q1 q3 v : ℚ) : Decidable (is_outlier q1 q3 v) :=
  inferInstanceAs (Decidable (v < q1 - 3/2 * (q3 - q1) ∨ q3 + 3/2 * (q3 - q1) < v))

/-- C9: for a profiled numeric column whose non-null values are nonempty,
with quartiles q1 and q3, the profiler reports exactly the count of
values satisfying the claimed outlier predicate, together with that
count as a percentage of the non-null values. -/
theorem profile_numeric_column_spec (cells : List (Option ℚ)) (q1 q3 : ℚ)
    (h : 0 < (cells.filterMap id).length) :
    profile_numeric_column cells q1 q3 =
      some ((cells.filterMap id).countP (fun v => decide (is_outlier q1 q3 v)),
        (((cells.filterMap id).countP (fun v => decide (is_outlier q1 q3 v))) : ℚ) /
          ((cells.filterMap id).length : ℚ) * 100) := by
  have hpred : (fun v : ℚ =>
      decide (v < q1 - 3/2 * (q3 - q1)) || decide (q3 + 3/2 * (q3 - q1) < v)) =
      (fun v => decide (is_outlier q1 q3 v)) := by
    funext v
    by_cases h1 : v < q1 - 3/2 * (q3 - q1) <;>
      by_cases h2 : q3 + 3/2 * (q3 - q1) < v <;>
        simp [is_outlier, h1, h2]
  simp only [profile_numeric_column, if_pos h, hpred]

/-- Witness for C9: the column [1, null, 2, 3, 100] with q1 = 1 and
q3 = 3 has exactly one outlier, which is 25 percent of the four
non-null values. -/
theorem profile_numeric_column_spec_witness :
    profile_numeric_column [some 1, none, some 2, some 3, some 100] 1 3 =
      some (1, 25) := by
  rw [profile_numeric_column_spec [some 1, none, some 2, some 3, some 100] 1 3
    (by decide)]
  norm_num [List.filterMap_cons, List.countP_cons, List.countP_nil, is_outlier]

/-! ## C8 -/

/-- C8 counterexample: with seven numeric columns c1..c7 and a
correlation kernel returning 1 for any pair whose second column is c7
and 0 otherwise, the pair (c6, c7) consists of numeric columns and has
absolute Pearson correlation 1 > 0.5, yet the correlation report is
empty: the source only examines pairs drawn from the first five (first
element) and six (second element) numeric columns. -/
theorem sorted_correlations_pair_cex :
    sorted_correlations ["c1", "c2", "c3", "c4", "c5", "c6", "c7"]
        (fun _ y => if y = "c7" then (1:ℚ) else 0) = [] ∧
    (1:ℚ)/2 < |(fun (_ y : String) => if y = "c7" then (1:ℚ) else 0) "c6" "c7"| ∧
    "c6" ∈ ["c1", "c2", "c3", "c4", "c5", "c6", "c7"] ∧
    "c7" ∈ ["c1", "c2", "c3", "c4", "c5", "c6", "c7"] := by
  refine ⟨?_, ?_, by decide, by decide⟩
  · rw [sorted_correlations]
    have hc : collect_correlations ["c1", "c2", "c3", "c4", "c5", "c6", "c7"]
        (fun _ y => if y = "c7" then (1:ℚ) else 0) = [] := by
      have h0 : ¬((1:ℚ)/2 < 0) := by norm_num
      simp [collect_correlations, List.enum, List.enumFrom, List.flatMap_cons,
        List.filterMap_cons, h0]
    rw [hc, List.mergeSort_nil]
  · show (1:ℚ)/2 < |if ("c7":String) = "c7" then (1:ℚ) else 0|
    rw [if_pos rfl, abs_of_nonneg (by norm_num : (0:ℚ) ≤ 1)]
    norm_num

/-- C8 (corrected: the source examines only the pairs of numeric columns
at positions (i, j) with i < 5, i < j and j < 6): every entry of the
correlation report has absolute correlation above 0.5, every examined
pair with absolute correlation above 0.5 appears in the report, and the
report is sorted in descending order of absolute correlation. -/
theorem sorted_correlations_spec (cols : List String) (corr : String → String → ℚ) :
    (∀ x ∈ sorted_correlations cols corr, 1/2 < |x.2.2|) ∧
    (∀ i j (hi : i < cols.length) (hj : j < cols.length), i < 5 → j < 6 → i < j →
      1/2 < |corr (cols.get ⟨i, hi⟩) (cols.get ⟨j, hj⟩)| →
      (cols.get ⟨i, hi⟩, cols.get ⟨j, hj⟩, corr (cols.get ⟨i, hi⟩) (cols.get ⟨j, hj⟩)) ∈
        sorted_correlations cols corr) ∧
    List.Pairwise (fun a b : String × String × ℚ => |b.2.2| ≤ |a.2.2|)
      (sorted_correlations cols corr) := by
  refine ⟨?_, ?_, ?_⟩
  · intro x hx
    rw [sorted_correlations, List.mem_mergeSort] at hx
    simp only [collect_correlations] at hx
    rcases List.mem_flatMap.mp hx with ⟨p, hp, hx2⟩
    rcases List.mem_filterMap.mp hx2 with ⟨c2, hc2, hfx⟩
    split_ifs at hfx with hcond
    injection hfx with h
    subst h
    exact hcond
  · intro i j hi hj h5 h6 hij hcorr
    rw [sorted_correlations, List.mem_mergeSort]
    simp only [collect_correlations]
    apply List.mem_flatMap.mpr
    refine ⟨(i, cols.get ⟨i, hi⟩), ?_, ?_⟩
    · have hlen : i < (cols.take 5).enum.length := by
        rw [List.enum_length, List.length_take]
        omega
      have hmem := List.getElem_mem hlen
      rw [List.getElem_enum, List.getElem_take] at hmem
      exact hmem
    · apply List.mem_filterMap.mpr
      refine ⟨cols.get ⟨j, hj⟩, ?_, ?_⟩
      · have hlen2 : j - (i + 1) < ((cols.drop (i + 1)).take (6 - (i + 1))).length := by
          rw [List.length_take, List.length_drop]
          omega
        have hmem2 := List.getElem_mem hlen2
        rw [List.getElem_take, List.getElem_drop] at hmem2
        have hidx : i + 1 + (j - (i + 1)) = j := by omega
        simp only [hidx] at hmem2
        exact hmem2
      · dsimp only
        rw [if_pos hcorr]
  · have htrans : ∀ a b c : String × String × ℚ,
        (fun a b : String × String × ℚ => decide (|b.2.2| ≤ |a.2.2|)) a b = true →
        (fun a b : String × String × ℚ => decide (|b.2.2| ≤ |a.2.2|)) b c = true →
        (fun a b : String × String × ℚ => decide (|b.2.2| ≤ |a.2.2|)) a c = true := by
      intro a b c hab hbc
      simp only [decide_eq_true_eq] at hab hbc ⊢
      exact le_trans hbc hab
    have htot : ∀ a b : String × String × ℚ,
        ((fun a b : String × String × ℚ => decide (|b.2.2| ≤ |a.2.2|)) a b ||
          (fun a b : String × String × ℚ => decide (|b.2.2| ≤ |a.2.2|)) b a) = true := by
      intro a b
      simp only [Bool.or_eq_true, decide_eq_true_eq]
      exact le_total _ _
    have hs := @List.sorted_mergeSort (String × String × ℚ)
      (fun a b : String × String × ℚ => decide (|b.2.2| ≤ |a.2.2|)) htrans htot
      (collect_correlations cols corr)
    rw [sorted_correlations]
    exact hs.imp fun h => of_decide_eq_true h

/-- Witness for C8: on the columns a, b, c with a correlation kernel
giving the pair (a, b) correlation 6/10, that pair appears in the
report. -/
theorem sorted_correlations_spec_witness :
    ("a", "b", (6:ℚ)/10) ∈ sorted_correlations ["a", "b", "c"]
      (fun x y => if x = "a" ∧ y = "b" then (6:ℚ)/10 else 0) := by
  have h := (sorted_correlations_spec ["a", "b", "c"]
      (fun x y => if x = "a" ∧ y = "b" then (6:ℚ)/10 else 0)).2.1 0 1
    (by norm_num) (by norm_num) (by norm_num) (by norm_num) (by norm_num)
    (by show (1:ℚ)/2 < |if ("a":String) = "a" ∧ ("b":String) = "b" then (6:ℚ)/10 else 0|
        rw [if_pos ⟨rfl, rfl⟩, abs_of_nonneg (by norm_num : (0:ℚ) ≤ 6/10)]
        norm_num)
  exact h
